import Mathlib

/-!
Verification development for the wasserspiegel water-level service.

The Go sources are shallowly embedded as executable Lean definitions:

* `GoTimeModel` models the slice of Go's `time` package the repository uses:
  RFC3339 parsing (`time.Parse(time.RFC3339, ..)` via its strict fast path),
  RFC3339 formatting, and calendar-day arithmetic.  A `time.Time` carrying a
  fixed zone is represented by its Unix instant (seconds) together with the
  zone offset; `AddDate(0, 0, -n)` on a fixed-offset time moves the instant
  by exactly `n * 86400` seconds.  Float64 measurement values are modelled
  as exact rationals; the values exercised below are small integers on
  which float64 arithmetic is exact.
* namespace `station` embeds station/waterlevel.go (the trend engine).
* namespace `measurement` embeds measurement/sql_repository.go over an
  explicit relational store state, translating each SQL statement's
  semantics, including the WHERE clauses exactly as written in the source.
* namespace `dashboard` and namespace `task` embed the dashboard merge and
  the dashboard builder.
-/

namespace GoTimeModel

/-- Proleptic Gregorian leap-year predicate, as used by Go's `time` package. -/
def isLeapYear (y : Int) : Bool :=
  (y % 4 == 0 && y % 100 != 0) || y % 400 == 0

/-- Length of a month, matching `daysIn` in Go's `time` package. -/
def daysInMonth (y : Int) (m : Nat) : Nat :=
  match m with
  | 1 => 31
  | 2 => if isLeapYear y then 29 else 28
  | 3 => 31
  | 4 => 30
  | 5 => 31
  | 6 => 30
  | 7 => 31
  | 8 => 31
  | 9 => 30
  | 10 => 31
  | 11 => 30
  | 12 => 31
  | _ => 0

/-- Day number (days since 1970-01-01) of a civil date, the standard
days-from-civil computation used by calendar libraries and equivalent to
Go's absolute-date arithmetic. -/
def daysFromCivil (y : Int) (m d : Nat) : Int :=
  let yAdj : Int := if m ≤ 2 then y - 1 else y
  let era : Int := yAdj.fdiv 400
  let yoe : Int := yAdj - era * 400
  let mp : Int := if m ≤ 2 then (m : Int) + 9 else (m : Int) - 3
  let doy : Int := (153 * mp + 2).fdiv 5 + (d : Int) - 1
  let doe : Int := yoe * 365 + yoe.fdiv 4 - yoe.fdiv 100 + doy
  era * 146097 + doe - 719468

/-- Civil date of a day number; inverse of `daysFromCivil`, used only for
rendering timestamps. -/
def civilFromDays (z : Int) : Int × Nat × Nat :=
  let zz := z + 719468
  let era := zz.fdiv 146097
  let doe := (zz - era * 146097).toNat
  let yoe := (doe - doe / 1460 + doe / 36524 - doe / 146096) / 365
  let doy := doe - (365 * yoe + yoe / 4 - yoe / 100)
  let mp := (5 * doy + 2) / 153
  let d := doy - (153 * mp + 2) / 5 + 1
  let m := if mp < 10 then mp + 3 else mp - 9
  let y : Int := (yoe : Int) + era * 400
  (if m ≤ 2 then y + 1 else y, m, d)

/-- A Go `time.Time` as produced by `time.Parse(time.RFC3339, ..)`: the
instant in Unix seconds plus the fixed zone offset it was parsed with. -/
structure GoTime where
  epoch : Int
  offset : Int
deriving DecidableEq

/-- UTC calendar-day index of an instant (days since the Unix epoch,
flooring), so two instants have equal `utcDay` iff their UTC civil dates
(`Year`, `Month`, `Day` in `time.UTC`) coincide. -/
def utcDay (e : Int) : Int := e.fdiv 86400

def pad2 (n : Nat) : String :=
  if n < 10 then "0" ++ toString n else toString n

def pad4 (y : Int) : String :=
  let n := y.toNat
  if n < 10 then "000" ++ toString n
  else if n < 100 then "00" ++ toString n
  else if n < 1000 then "0" ++ toString n
  else toString n

/-- `t.Format(time.RFC3339)`: the civil fields in `t`'s own (fixed) zone,
with suffix `Z` for offset zero and `±hh:mm` otherwise. -/
def formatRFC3339 (t : GoTime) : String :=
  let loc := t.epoch + t.offset
  let day := loc.fdiv 86400
  let sod := (loc - day * 86400).toNat
  let ymd := civilFromDays day
  let hh := sod / 3600
  let mi := sod % 3600 / 60
  let ss := sod % 60
  pad4 ymd.1 ++ "-" ++ pad2 ymd.2.1 ++ "-" ++ pad2 ymd.2.2 ++ "T" ++
    pad2 hh ++ ":" ++ pad2 mi ++ ":" ++ pad2 ss ++
    (if t.offset == 0 then "Z"
     else
       let a := t.offset.natAbs
       (if t.offset > 0 then "+" else "-") ++ pad2 (a / 3600) ++ ":" ++ pad2 (a % 3600 / 60))

def digit? (c : Char) : Option Nat :=
  if c.isDigit then some (c.toNat - 48) else none

def digits2 (a b : Char) : Option Nat := do
  let x ← digit? a
  let y ← digit? b
  pure (10 * x + y)

def digits4 (a b c d : Char) : Option Nat := do
  let x ← digits2 a b
  let y ← digits2 c d
  pure (100 * x + y)

/-- Consume an optional fractional-seconds part: either nothing, or a dot
followed by at least one digit (Go's RFC3339 fast path). -/
def dropFraction : List Char → Option (List Char)
  | '.' :: rest =>
    match rest with
    | c :: _ => if c.isDigit then some (rest.dropWhile (fun x => x.isDigit)) else none
    | [] => none
  | l => some l

/-- Parse the zone suffix: `Z`, or `±hh:mm` with `hh ≤ 23`, `mm ≤ 59`,
returning the offset in seconds east of UTC. -/
def parseOffset : List Char → Option Int
  | ['Z'] => some 0
  | [sgn, h1, h2, ':', m1, m2] => do
    let hh ← digits2 h1 h2
    let mm ← digits2 m1 m2
    if hh ≤ 23 ∧ mm ≤ 59 then
      if sgn == '+' then some ((hh * 3600 + mm * 60 : Nat) : Int)
      else if sgn == '-' then some (-((hh * 3600 + mm * 60 : Nat) : Int))
      else none
    else none
  | _ => none

/-- `time.Parse(time.RFC3339, s)`: Go's strict RFC3339 grammar
`YYYY-MM-DDThh:mm:ss[.d+](Z|±hh:mm)` with all calendar fields
range-checked.  Returns the parsed instant together with its zone offset. -/
def parseRFC3339 (s : String) : Option GoTime :=
  match s.data with
  | y1 :: y2 :: y3 :: y4 :: '-' :: mo1 :: mo2 :: '-' :: d1 :: d2 :: 'T' ::
      h1 :: h2 :: ':' :: mi1 :: mi2 :: ':' :: s1 :: s2 :: rest => do
    let year ← digits4 y1 y2 y3 y4
    let month ← digits2 mo1 mo2
    let day ← digits2 d1 d2
    let hour ← digits2 h1 h2
    let minute ← digits2 mi1 mi2
    let second ← digits2 s1 s2
    if 1 ≤ month ∧ month ≤ 12 ∧ 1 ≤ day ∧ day ≤ daysInMonth (year : Int) month ∧
        hour ≤ 23 ∧ minute ≤ 59 ∧ second ≤ 59 then
      let rest2 ← dropFraction rest
      let off ← parseOffset rest2
      some { epoch := daysFromCivil (year : Int) month day * 86400 +
               ((hour * 3600 + minute * 60 + second : Nat) : Int) - off,
             offset := off }
    else none
  | _ => none

end GoTimeModel

namespace station

open GoTimeModel

/-- station.Measurement: one water-level reading (station/waterlevel.go). -/
structure Measurement where
  Timestamp : String
  Value : ℚ
  Unit : String
deriving DecidableEq

/-- The zero value of the Go `Measurement` struct. -/
def Measurement.zero : Measurement := { Timestamp := "", Value := 0, Unit := "" }

/-- station.MeasurementTrend. -/
structure MeasurementTrend where
  P1D : Option Measurement
  P3D : Option Measurement
  P7D : Option Measurement
deriving DecidableEq

/-- station.WaterLevelCollection. -/
structure WaterLevelCollection where
  StationID : String
  Start : String
  End : String
  Measurements : List Measurement
  Latest : Measurement
  Trend : MeasurementTrend
  Unit : String
deriving DecidableEq

/-- `WaterLevelCollection.GetLatestMeasurement`: the last element of the
collection's measurement list, or the zero measurement when empty. -/
def WaterLevelCollection.GetLatestMeasurement (wlc : WaterLevelCollection) : Measurement :=
  match wlc.Measurements.getLast? with
  | none => Measurement.zero
  | some m => m

/-- `ParseTimestamp`: empty strings are rejected, everything else goes to
`time.Parse(time.RFC3339, ..)`. -/
def ParseTimestamp (timestamp : String) : Option GoTime :=
  if timestamp = "" then none else parseRFC3339 timestamp

/-- `IsDameDay`: both times are moved to `time.UTC` and their start-of-day
instants (`time.Date(Year, Month, Day, 0, 0, 0, 0, UTC)`) are compared.
The start of an instant's UTC day is `utcDay e * 86400`, so the two start
instants are equal exactly when the UTC day indices are. -/
def IsDameDay (t1 t2 : GoTime) : Bool :=
  utcDay t1.epoch == utcDay t2.epoch

/-- `getSameDayMeasurements`: keep, in order, the measurements whose
timestamp parses and falls on the same UTC calendar day as `targetDate`;
entries that fail to parse are skipped silently. -/
def getSameDayMeasurements (ms : List Measurement) (targetDate : GoTime) : List Measurement :=
  ms.filter fun m =>
    match ParseTimestamp m.Timestamp with
    | none => false
    | some t => IsDameDay t targetDate

/-- `Measurement.Difference`: errors when the units differ, otherwise
returns `other` stamped value minus the receiver's value (`other.Value -
m.Value`), at `other`'s timestamp, in the receiver's unit. -/
def Measurement.Difference (m other : Measurement) : Except String Measurement :=
  if m.Unit ≠ other.Unit then .error "units mismatch"
  else .ok { Timestamp := other.Timestamp, Value := other.Value - m.Value, Unit := m.Unit }

/-- `calculateDifferenceNDays`: `targetDate` is `m`'s timestamp moved back
`nDays` calendar days (`AddDate(0, 0, -nDays)`, an exact `nDays * 86400`
second shift for fixed-offset times); the same-UTC-day measurements are
averaged and differenced against `m`. -/
def calculateDifferenceNDays (m : Measurement) (ms : List Measurement) (nDays : Int) :
    Except String Measurement :=
  if ms.length = 0 then .error "no measurements available for P1D difference"
  else
    match ParseTimestamp m.Timestamp with
    | none => .error "invalid timestamp format"
    | some startDate =>
      let targetDate : GoTime := { startDate with epoch := startDate.epoch - nDays * 86400 }
      let targetMeasurements := getSameDayMeasurements ms targetDate
      if targetMeasurements.length = 0 then
        .error ("no measurements found for the target date: " ++ formatRFC3339 targetDate)
      else
        let totalValue : ℚ := targetMeasurements.foldl (fun acc x => acc + x.Value) 0
        let averageValue : ℚ := totalValue / (targetMeasurements.length : ℚ)
        m.Difference { Timestamp := formatRFC3339 targetDate, Value := averageValue, Unit := m.Unit }

/-- `WaterLevelCollection.CalculateTrends`: the Go method mutates the
receiver and returns an error; modelled as (optional error, final
receiver state).  On the first horizon whose computation fails, the
method stores the returned nil in that horizon's field, wraps the error
and returns, leaving the later horizons untouched. -/
def WaterLevelCollection.CalculateTrends (wlc : WaterLevelCollection)
    (measurements : List Measurement) : Option String × WaterLevelCollection :=
  if measurements.length = 0 then
    (some "no measurements available to calculate trends", wlc)
  else
    let wlc1 := { wlc with Latest := wlc.GetLatestMeasurement }
    match calculateDifferenceNDays wlc1.Latest measurements 1 with
    | .error e => (some ("error calculating P1D trend: " ++ e),
        { wlc1 with Trend := { wlc1.Trend with P1D := none } })
    | .ok r1 =>
      let wlc2 := { wlc1 with Trend := { wlc1.Trend with P1D := some r1 } }
      match calculateDifferenceNDays wlc2.Latest measurements 3 with
      | .error e => (some ("error calculating P3D trend: " ++ e),
          { wlc2 with Trend := { wlc2.Trend with P3D := none } })
      | .ok r3 =>
        let wlc3 := { wlc2 with Trend := { wlc2.Trend with P3D := some r3 } }
        match calculateDifferenceNDays wlc3.Latest measurements 7 with
        | .error e => (some ("error calculating P7D trend: " ++ e),
            { wlc3 with Trend := { wlc3.Trend with P7D := none } })
        | .ok r7 => (none, { wlc3 with Trend := { wlc3.Trend with P7D := some r7 } })

end station

namespace measurement

/-- measurement.Measurement: series metadata. -/
structure Measurement where
  ID : Int
  Name : String
  Description : String
  Unit : String
deriving DecidableEq

/-- measurement.Sample. -/
structure Sample where
  ID : Int
  MeasurementID : Int
  Value : ℚ
  Timestamp : Int
deriving DecidableEq

/-- measurement.Period, an interval in Epoch seconds. -/
structure Period where
  Start : Int
  End : Int
deriving DecidableEq

/-- measurement.Timeseries. -/
structure Timeseries where
  Name : String
  Samples : List Sample
  Start : Int
  End : Int
  Measurement : Option Measurement
deriving DecidableEq

/-- `measurement.ParseRFC3339`: RFC3339 timestamp to Unix seconds
(`t.Unix()` of the parsed time). -/
def ParseRFC3339 (timestamp : String) : Option Int :=
  (GoTimeModel.parseRFC3339 timestamp).map fun t => t.epoch

/-- `NewMeasurementName`: join the keys with hyphens and slugify.  The
slug library is external, so it is passed in as a function. -/
def NewMeasurementName (slugMake : String → String) (keys : List String) : String :=
  slugMake (String.intercalate "-" keys)

/-- `ParseISO8601Duration`: the ISO-8601 duration parser itself is the
external sosodev/duration library (passed in as `durParse`, yielding the
duration in seconds); the repository code subtracts it from `untilE` and
clamps at zero. -/
def ParseISO8601Duration (durParse : String → Option Int) (iso8601 : String)
    (untilE : Int) : Option Int :=
  match durParse iso8601 with
  | none => none
  | some secs =>
    let start := untilE - secs
    some (if start < 0 then 0 else start)

/-- `NewFromISO8601Duration`: the period ending now and starting the
parsed duration earlier. -/
def NewFromISO8601Duration (durParse : String → Option Int) (now : Int)
    (periodStr : String) : Option Period :=
  match ParseISO8601Duration durParse periodStr now with
  | none => none
  | some start => some { Start := start, End := now }

/-- One row of the `measurements` table. -/
structure MeasurementRow where
  id : Int
  name : String
  description : String
  unit : String
deriving DecidableEq

/-- One row of the `samples` table. -/
structure SampleRow where
  id : Int
  measurementID : Int
  value : ℚ
  timestamp : Int
deriving DecidableEq

/-- The relational store the SQLRepository talks to: the two tables, plus
the next generated primary key for each (rows are only ever appended). -/
structure Store where
  measurements : List MeasurementRow
  samples : List SampleRow
  nextMeasurementID : Int
  nextSampleID : Int
deriving DecidableEq

def Store.empty : Store :=
  { measurements := [], samples := [], nextMeasurementID := 1, nextSampleID := 1 }

def decDigitsToNat? : List Char → Option Nat
  | [] => none
  | l =>
    if l.all (fun c => c.isDigit) then
      some (l.foldl (fun acc c => 10 * acc + (c.toNat - 48)) 0)
    else none

/-- SQLite numeric affinity applied to a text value bound against the
INTEGER `id` column: the text takes part in the comparison as an integer
only when it reads as one; otherwise an INTEGER column value never
equals it.  (Only canonical integer text is modelled; the slug-formed
series names this repository uses are non-numeric under any reading.) -/
def sqliteTextAsInt (s : String) : Option Int :=
  match s.data with
  | '-' :: rest => (decDigitsToNat? rest).map fun n => -(n : Int)
  | l => (decDigitsToNat? l).map fun n => (n : Int)

/-- `hasMeasurement`: SELECT COUNT(*) FROM measurements WHERE name = ?. -/
def hasMeasurement (st : Store) (name : String) : Bool :=
  st.measurements.any fun r => r.name == name

/-- `AddMeasurement`: INSERT INTO measurements (name, unit, description)
VALUES (?, ?, ?); the store generates the id. -/
def AddMeasurement (st : Store) (m : Measurement) : Store :=
  { st with
    measurements := st.measurements ++
      [{ id := st.nextMeasurementID, name := m.Name,
         description := m.Description, unit := m.Unit }],
    nextMeasurementID := st.nextMeasurementID + 1 }

/-- `getMeasurementByName`: the function is called with a series NAME,
but its query is `SELECT id, name, unit FROM measurements WHERE id = ?`,
comparing the INTEGER id column against the name text.  The row whose id
equals the name-as-integer is returned; for a non-numeric name no row
ever matches and the function returns nil with no error. -/
def getMeasurementByName (st : Store) (name : String) : Option MeasurementRow :=
  match sqliteTextAsInt name with
  | none => none
  | some k => st.measurements.find? fun r => r.id == k

/-- `hasSample`: SELECT COUNT(*) FROM samples WHERE measurement_id = ?
AND timestamp = ?. -/
def hasSample (st : Store) (measurementID : Int) (timestamp : Int) : Bool :=
  st.samples.any fun r => r.measurementID == measurementID && r.timestamp == timestamp

/-- `addSample`: skip when a sample at `(measurement_id, timestamp)`
already exists, otherwise INSERT INTO samples (measurement_id, value,
timestamp); the inserted row takes the passed measurement id and the
sample's value and timestamp (the sample's own ID and MeasurementID
fields are not used). -/
def addSample (st : Store) (measurementID : Int) (s : Sample) : Store :=
  if hasSample st measurementID s.Timestamp then st
  else
    { st with
      samples := st.samples ++
        [{ id := st.nextSampleID, measurementID := measurementID,
           value := s.Value, timestamp := s.Timestamp }],
      nextSampleID := st.nextSampleID + 1 }

/-- The sample-insertion loop of `AddTimeseries`. -/
def insertSamples (st : Store) (measurementID : Int) (samples : List Sample) : Store :=
  samples.foldl (fun acc s => addSample acc measurementID s) st

/-- `AddTimeseries`: ensure a measurement row named `ts.Name` exists
(creating one from `ts.Measurement` if absent; a nil metadata pointer is
rejected by `AddMeasurement`), then resolve the measurement with
`getMeasurementByName` and insert every sample.  Returns (optional
error, final store): the Go method mutates the database up to the point
of failure. -/
def AddTimeseries (st : Store) (tsOpt : Option Timeseries) : Option String × Store :=
  match tsOpt with
  | none => (some "timeseries cannot be nil", st)
  | some ts =>
    let ensured : Option String × Store :=
      if hasMeasurement st ts.Name then (none, st)
      else
        match ts.Measurement with
        | none => (some "measurement cannot be nil", st)
        | some meta => (none, AddMeasurement st meta)
    match ensured with
    | (some e, st1) => (some e, st1)
    | (none, st1) =>
      match getMeasurementByName st1 ts.Name with
      | none => (some ("measurement not found after adding: " ++ ts.Name), st1)
      | some row => (none, insertSamples st1 row.id ts.Samples)

/-- `getSampleSpanByMeasurementID`: its query
`SELECT .. WHERE measurement_id = ? AND timestamp >= ? AND timestamp <= ?
ORDER BY timestamp ASC` has three parameter placeholders, but the call
`r.db.Query(query, measurementID)` binds only one argument, so the query
is rejected for the parameter-count mismatch and the function returns an
error before any row comes back; the ORDER BY is never observable. -/
def getSampleSpanByMeasurementID (_st : Store) (_measurementID : Int) :
    Except String (List SampleRow) :=
  .error "sql: expected 3 arguments, got 1"

/-- `GetTimeseries`: resolve the measurement by name (nil result means
"not found", returned as ok-nil), then fetch its sample span and wrap it
with the requested period bounds. -/
def GetTimeseries (st : Store) (measurementName : String) (period : Period) :
    Except String (Option Timeseries) :=
  match getMeasurementByName st measurementName with
  | none => .ok none
  | some row =>
    match getSampleSpanByMeasurementID st row.id with
    | .error e => .error e
    | .ok rows =>
      .ok (some
        { Name := row.name,
          Samples := rows.map fun r =>
            { ID := r.id, MeasurementID := r.measurementID,
              Value := r.value, Timestamp := r.timestamp },
          Start := period.Start, End := period.End,
          Measurement := some { ID := row.id, Name := row.name,
                                Description := "", Unit := row.unit } })

end measurement
namespace station

/-- station.ExternalID. -/
structure ExternalID where
  Name : String
  ID : String
deriving DecidableEq

/-- station.Location. -/
structure Location where
  KM : ℚ
  Latitude : ℚ
  Longitude : ℚ
deriving DecidableEq

/-- station.Station. -/
structure Station where
  ID : String
  Name : String
  Water : String
  Location : Location
  ExternalIDs : List ExternalID
deriving DecidableEq

end station

namespace dashboard

/-- dashboard.Dashboard. -/
structure Dashboard where
  ID : String
  Name : String
  Description : String
  Station : station.Station
  WaterLevel : measurement.Timeseries
  LanguageCode : String
  Timezone : String
  CreatedAt : Int
  UpdatedAt : Int
deriving DecidableEq

/-- `NewEmptyDashboard`: everything zero except the station id, the
language code and the timezone. -/
def NewEmptyDashboard (stationID languageCode timezone : String) : Dashboard :=
  { ID := "", Name := "", Description := "",
    Station := { ID := stationID, Name := "", Water := "",
                 Location := { KM := 0, Latitude := 0, Longitude := 0 }, ExternalIDs := [] },
    WaterLevel := { Name := "", Samples := [], Start := 0, End := 0, Measurement := none },
    LanguageCode := languageCode, Timezone := timezone,
    CreatedAt := 0, UpdatedAt := 0 }

/-- `Dashboard.Merge`: copy each of `other`'s fields onto the receiver
whenever that field of `other` is non-empty (strings), has at least one
sample (the timeseries), has a non-empty station id (the station), or is
positive (the timestamps); the receiver's ID is never touched.  A nil
`other` leaves the receiver unchanged. -/
def Dashboard.Merge (d : Dashboard) (other : Option Dashboard) : Dashboard :=
  match other with
  | none => d
  | some o =>
    let d1 := if o.Name ≠ "" then { d with Name := o.Name } else d
    let d2 := if o.Description ≠ "" then { d1 with Description := o.Description } else d1
    let d3 := if o.Station.ID ≠ "" then { d2 with Station := o.Station } else d2
    let d4 := if o.WaterLevel.Samples.length > 0 then { d3 with WaterLevel := o.WaterLevel } else d3
    let d5 := if o.LanguageCode ≠ "" then { d4 with LanguageCode := o.LanguageCode } else d4
    let d6 := if o.Timezone ≠ "" then { d5 with Timezone := o.Timezone } else d5
    let d7 := if o.CreatedAt > 0 then { d6 with CreatedAt := o.CreatedAt } else d6
    if o.UpdatedAt > 0 then { d7 with UpdatedAt := o.UpdatedAt } else d7

/-- `Dashboard.IsSaved`. -/
def Dashboard.IsSaved (d : Dashboard) : Bool :=
  d.ID ≠ ""

/-- `GenerateDashboardID`: slug of `stationID-languageCode-timezone`. -/
def GenerateDashboardID (slugMake : String → String) (dOpt : Option Dashboard) :
    Except String String :=
  match dOpt with
  | none => .error "dashboard cannot be nil"
  | some d =>
    if d.Station.ID = "" then .error "dashboard station ID cannot be empty"
    else .ok (slugMake (String.intercalate "-" [d.Station.ID, d.LanguageCode, d.Timezone]))

end dashboard

namespace task

/-- task.DashboardBuilderOptions. -/
structure DashboardBuilderOptions where
  StationID : String
  Period : String
  LanguageCode : String
  Timezone : String
deriving DecidableEq

def DefaultPeriod : String := "P15D"
def DefaultLanguageCode : String := "en"
def DefaultTimezone : String := "utc"

def NewDefaultDashboardBuilderOptions (stationID : String) : DashboardBuilderOptions :=
  { StationID := stationID, Period := DefaultPeriod,
    LanguageCode := DefaultLanguageCode, Timezone := DefaultTimezone }

/-- The sample-collection loop of `mapWaterLevelCollectionToTimeseries`:
parse each reading's RFC3339 timestamp into an epoch, aborting on the
first bad entry (the Go loop returns its error immediately). -/
def collectSamples : List station.Measurement → Except String (List measurement.Sample)
  | [] => .ok []
  | level :: rest =>
    match measurement.ParseRFC3339 level.Timestamp with
    | none => .error "failed to parse RFC3339 timestamp"
    | some sampleEpoch =>
      match collectSamples rest with
      | .error e => .error e
      | .ok samples =>
        .ok ({ ID := 0, MeasurementID := 0,
               Value := level.Value, Timestamp := sampleEpoch : measurement.Sample } :: samples)

/-- `mapWaterLevelCollectionToTimeseries`: turn provider readings into
samples, parsing every RFC3339 timestamp and aborting on the first bad
one; the synthesized metadata carries unit cm and a description naming
the station. -/
def mapWaterLevelCollectionToTimeseries (waterLevels : Option station.WaterLevelCollection)
    (measurementName : String) (period : measurement.Period) :
    Except String measurement.Timeseries :=
  match waterLevels with
  | none => .error "no water levels available for station"
  | some wlc =>
    if wlc.Measurements.length = 0 then
      .error ("no water levels available for station " ++ wlc.StationID)
    else
      match collectSamples wlc.Measurements with
      | .error e => .error e
      | .ok samples =>
        .ok { Name := measurementName, Samples := samples,
              Start := period.Start, End := period.End,
              Measurement := some
                { ID := 0, Name := measurementName,
                  Description := "Water level measurements for station " ++ wlc.StationID,
                  Unit := "cm" } }

/-- The collaborators `DashboardBuilder.Run` calls out to: the external
slug and ISO-duration libraries, the clock, the key-value dashboard and
station repositories, and the relational measurement store. -/
structure BuilderEnv where
  slugMake : String → String
  durParse : String → Option Int
  now : Int
  dashboardGet : String → Except String dashboard.Dashboard
  stationGet : String → Except String (Option station.Station)
  store : measurement.Store

/-- Outcome of one `DashboardBuilder.Run` invocation. -/
inductive RunOutcome where
  | ok (d : dashboard.Dashboard)
  | err (e : String)
  | panicked
deriving DecidableEq

/-- `DashboardBuilder.Run`: build an empty dashboard, derive its
deterministic id, merge an existing dashboard onto it (or populate
station details when none exists), then fetch the water-level
timeseries and assign `*waterLevelTimeseries` to the WaterLevel field.
`GetTimeseries` returns nil with a nil error for an absent series, and
the code checks only the error before dereferencing the pointer, so
that assignment is a nil-pointer dereference: outcome `panicked`. -/
def DashboardBuilder.Run (env : BuilderEnv) (opts : DashboardBuilderOptions) : RunOutcome :=
  let newDashboard := dashboard.NewEmptyDashboard opts.StationID opts.LanguageCode opts.Timezone
  match dashboard.GenerateDashboardID env.slugMake (some newDashboard) with
  | .error e => .err e
  | .ok dashboardID =>
    let prepared : Except String dashboard.Dashboard :=
      match env.dashboardGet dashboardID with
      | .ok existing => .ok (newDashboard.Merge (some existing))
      | .error _ =>
        match env.stationGet opts.StationID with
        | .error e => .error e
        | .ok stationDetails =>
          let withStation :=
            match stationDetails with
            | none => newDashboard
            | some s => { newDashboard with Station := s }
          .ok { withStation with
                Name := "Dashboard for " ++ withStation.Station.Name,
                Description := "Auto-generated dashboard for station " ++ withStation.Station.Name }
    match prepared with
    | .error e => .err e
    | .ok d2 =>
      match measurement.NewFromISO8601Duration env.durParse env.now opts.Period with
      | none => .err "failed to parse period"
      | some period =>
        let measurementName :=
          measurement.NewMeasurementName env.slugMake ["waterlevel", opts.StationID]
        match measurement.GetTimeseries env.store measurementName period with
        | .error e => .err e
        | .ok none => .panicked
        | .ok (some ts) =>
          let d3 := { d2 with WaterLevel := ts }
          if d3.IsSaved then .ok d3 else .ok { d3 with ID := dashboardID }

end task
deriving instance DecidableEq for Except

/-- C1: the claim says `calculateDifferenceNDays` returns `latest.value`
minus the same-day average.  The code computes the opposite sign:
`Measurement.Difference` returns `other.Value - m.Value`, so the trend
delta is the average minus the latest value.  With latest 10 and a
single 1-day-old reading 4 the code yields -6 where the claim demands 6;
the repository's own TestMeasurementDifference expects
`current.Difference(previous)` to be current minus previous (10 and 5
giving 5), which the code also contradicts (it gives -5, and stamps the
result with `other`'s timestamp, not the receiver's). -/
theorem claim_C1 :
    station.calculateDifferenceNDays ⟨"2023-10-05T12:00:00Z", 10, "cm"⟩
        [⟨"2023-10-04T09:00:00Z", 4, "cm"⟩, ⟨"2023-10-05T12:00:00Z", 10, "cm"⟩] 1 =
      .ok ⟨"2023-10-04T12:00:00Z", -6, "cm"⟩ ∧
    ((-6 : ℚ) ≠ 10 - 4) ∧
    station.Measurement.Difference ⟨"2023-10-01T12:00:00Z", 10, "cm"⟩
        ⟨"2023-10-01T11:00:00Z", 5, "cm"⟩ =
      .ok ⟨"2023-10-01T11:00:00Z", -5, "cm"⟩ ∧
    ((-5 : ℚ) ≠ 10 - 5) :=
  of_decide_eq_true (by with_unfolding_all rfl)

/-- C7: differencing two measurements with distinct units fails with the
units-mismatch error and yields no result measurement. -/
theorem claim_C7 (a b : station.Measurement) (h : a.Unit ≠ b.Unit) :
    a.Difference b = .error "units mismatch" := by
  simp [station.Measurement.Difference, h]

/-- C7 witness: value 10 in cm differenced against value 5 in m. -/
theorem claim_C7_witness :
    station.Measurement.Difference ⟨"2023-10-01T12:00:00Z", 10, "cm"⟩
      ⟨"2023-10-01T11:00:00Z", 5, "m"⟩ = .error "units mismatch" :=
  claim_C7 _ _ (by decide)

/-- The C2 scenario readings: t0, t0 plus one day, t0 plus three days. -/
def c2Ms : List station.Measurement :=
  [⟨"2023-10-01T00:00:00Z", 10, "cm"⟩,
   ⟨"2023-10-02T00:00:00Z", 12, "cm"⟩,
   ⟨"2023-10-04T00:00:00Z", 15, "cm"⟩]

/-- The C2 scenario collection before trends are computed. -/
def c2WLC : station.WaterLevelCollection :=
  { StationID := "s1", Start := "", End := "", Measurements := c2Ms,
    Latest := station.Measurement.zero,
    Trend := { P1D := none, P3D := none, P7D := none }, Unit := "cm" }

/-- C2 counterexample: on the claim's own scenario (readings at t0, t0
plus 1 day and t0 plus 3 days, latest at t0 plus 3 days), the P1D
comparison set is empty, `CalculateTrends` aborts with an error at that
first horizon, and `p3d` is absent as well instead of the claimed 5: the
deltas of the other horizons are not computed. -/
theorem claim_C2_counterexample :
    ((c2WLC.CalculateTrends c2Ms).1.isSome = true) ∧
    (c2WLC.CalculateTrends c2Ms).2.Trend.P1D = none ∧
    (c2WLC.CalculateTrends c2Ms).2.Trend.P3D = none :=
  of_decide_eq_true (by with_unfolding_all rfl)

/-- C2 amended: when the 1-day horizon fails (for instance because its
same-day set is empty), `CalculateTrends` returns the wrapped P1D error
immediately: the P1D field holds the returned nil and the later
horizons are left untouched, so with an initially empty trend both p1d
and p3d end up absent; the caller `fetchCachedWaterLevels` merely logs
this error.  Second conjunct: the claim's scenario evaluated. -/
theorem claim_C2 (wlc : station.WaterLevelCollection) (ms : List station.Measurement)
    (e : String) (hne : ms.length ≠ 0)
    (h1 : station.calculateDifferenceNDays wlc.GetLatestMeasurement ms 1 = .error e) :
    wlc.CalculateTrends ms =
      (some ("error calculating P1D trend: " ++ e),
       { wlc with Latest := wlc.GetLatestMeasurement,
                  Trend := { wlc.Trend with P1D := none } }) ∧
    c2WLC.CalculateTrends c2Ms =
      (some "error calculating P1D trend: no measurements found for the target date: 2023-10-03T00:00:00Z",
       { c2WLC with Latest := ⟨"2023-10-04T00:00:00Z", 15, "cm"⟩ }) := by
  constructor
  · unfold station.WaterLevelCollection.CalculateTrends
    rw [if_neg hne]
    dsimp only
    rw [h1]
  · exact of_decide_eq_true (by with_unfolding_all rfl)

/-- C2 witness: the amended statement applied to the scenario itself. -/
theorem claim_C2_witness :
    c2WLC.CalculateTrends c2Ms =
      (some ("error calculating P1D trend: " ++
             "no measurements found for the target date: 2023-10-03T00:00:00Z"),
       { c2WLC with Latest := c2WLC.GetLatestMeasurement,
                    Trend := { c2WLC.Trend with P1D := none } }) :=
  (claim_C2 c2WLC c2Ms "no measurements found for the target date: 2023-10-03T00:00:00Z"
    (by decide) (of_decide_eq_true (by with_unfolding_all rfl))).1
/-- The C3 scenario: five provider readings on consecutive days. -/
def c3WLC : station.WaterLevelCollection :=
  { StationID := "a", Start := "", End := "",
    Measurements :=
      [⟨"2023-10-01T00:00:00Z", 10, "cm"⟩, ⟨"2023-10-02T00:00:00Z", 11, "cm"⟩,
       ⟨"2023-10-03T00:00:00Z", 12, "cm"⟩, ⟨"2023-10-04T00:00:00Z", 13, "cm"⟩,
       ⟨"2023-10-05T00:00:00Z", 14, "cm"⟩],
    Latest := station.Measurement.zero,
    Trend := { P1D := none, P3D := none, P7D := none }, Unit := "cm" }

/-- A period covering all five C3 readings. -/
def c3Period : measurement.Period := { Start := 1696000000, End := 1697000000 }

/-- The timeseries the merger builds from the C3 readings for the
series name `waterlevel-a`. -/
def c3TS : measurement.Timeseries :=
  { Name := "waterlevel-a",
    Samples :=
      [⟨0, 0, 10, 1696118400⟩, ⟨0, 0, 11, 1696204800⟩, ⟨0, 0, 12, 1696291200⟩,
       ⟨0, 0, 13, 1696377600⟩, ⟨0, 0, 14, 1696464000⟩],
    Start := 1696000000, End := 1697000000,
    Measurement := some
      { ID := 0, Name := "waterlevel-a",
        Description := "Water level measurements for station a", Unit := "cm" } }

set_option maxRecDepth 2000 in
/-- C3: the round-trip scenario fails on the code.  The five readings do
map to a five-sample timeseries, but `AddTimeseries` aborts with
"measurement not found after adding": `getMeasurementByName` filters
`WHERE id = ?` on the name text, which never matches the integer id
column for the slug-formed name, so no sample is ever persisted, and
`GetTimeseries` for the same name returns nil instead of the five
samples. -/
theorem claim_C3 :
    task.mapWaterLevelCollectionToTimeseries (some c3WLC) "waterlevel-a" c3Period =
      .ok c3TS ∧
    c3TS.Samples.length = 5 ∧
    measurement.AddTimeseries measurement.Store.empty (some c3TS) =
      (some "measurement not found after adding: waterlevel-a",
       { measurements :=
           [⟨1, "waterlevel-a", "Water level measurements for station a", "cm"⟩],
         samples := [], nextMeasurementID := 2, nextSampleID := 1 }) ∧
    measurement.GetTimeseries
        (measurement.AddTimeseries measurement.Store.empty (some c3TS)).2
        "waterlevel-a" c3Period = .ok none := by
  refine ⟨?_, by decide, ?_, ?_⟩
  · unfold task.mapWaterLevelCollectionToTimeseries
    norm_num [c3WLC, c3TS, c3Period, task.collectSamples,
      show measurement.ParseRFC3339 "2023-10-01T00:00:00Z" = some 1696118400 from by decide,
      show measurement.ParseRFC3339 "2023-10-02T00:00:00Z" = some 1696204800 from by decide,
      show measurement.ParseRFC3339 "2023-10-03T00:00:00Z" = some 1696291200 from by decide,
      show measurement.ParseRFC3339 "2023-10-04T00:00:00Z" = some 1696377600 from by decide,
      show measurement.ParseRFC3339 "2023-10-05T00:00:00Z" = some 1696464000 from by decide,
      show ("Water level measurements for station " ++ "a" : String) =
        "Water level measurements for station a" from rfl]
  · exact of_decide_eq_true (by with_unfolding_all rfl)
  · exact of_decide_eq_true (by with_unfolding_all rfl)

/-- A store already holding the series metadata row for C6 (id 1,
name `waterlevel-a`). -/
def c6Base : measurement.Store :=
  { measurements := [⟨1, "waterlevel-a", "", "cm"⟩], samples := [],
    nextMeasurementID := 2, nextSampleID := 1 }

/-- The C6 store after inserting two samples out of timestamp order. -/
def c6Store : measurement.Store :=
  measurement.insertSamples c6Base 1 [⟨0, 0, 12, 200⟩, ⟨0, 0, 11, 100⟩]

/-- C6: the ordering contract fails on the code.  With two samples
stored out of order for the series `waterlevel-a`, `GetTimeseries`
returns nil rather than the samples in ascending order, because
`getMeasurementByName` matches the name text against the integer id
column and never finds the series (and even past that lookup, the
sample-span query binds one argument for three placeholders, so the
ORDER BY never yields rows). -/
theorem claim_C6 :
    ((c6Store.samples.map fun r => r.timestamp) = [200, 100]) ∧
    measurement.GetTimeseries c6Store "waterlevel-a" ⟨0, 1000⟩ = .ok none :=
  of_decide_eq_true (by with_unfolding_all rfl)

/-- The existing dashboard used in the C8 counterexample. -/
def c8Existing : dashboard.Dashboard :=
  { ID := "station1-de-utc", Name := "Old dashboard", Description := "old",
    Station := { ID := "station1", Name := "Alte Station", Water := "rhein",
                 Location := { KM := 0, Latitude := 0, Longitude := 0 }, ExternalIDs := [] },
    WaterLevel := { Name := "", Samples := [], Start := 0, End := 0, Measurement := none },
    LanguageCode := "de", Timezone := "", CreatedAt := 5, UpdatedAt := 0 }

/-- C8 counterexample: the build-time merge is `new.Merge(existing)`,
and `Merge` copies the argument's non-empty fields onto the receiver,
so when both sides are non-empty the existing value wins: merging onto a
newly built dashboard with language code `en` (non-empty) an existing
dashboard with language code `de` yields `de`, while the claim says the
newly-built side's non-empty value is taken. -/
theorem claim_C8_counterexample :
    ((dashboard.NewEmptyDashboard "station1" "en" "utc").Merge (some c8Existing)).LanguageCode
      = "de" ∧
    (dashboard.NewEmptyDashboard "station1" "en" "utc").LanguageCode = "en" ∧
    ("de" : String) ≠ "en" := by
  decide

/-- C8 amended: the merge gives precedence to the existing (argument)
side: for every field the merged value is the existing side's whenever
that side is non-empty (strings), non-zero (timestamps), carries a
station id, or has at least one sample; only where the existing side is
empty does the newly-built receiver's value survive.  The dashboard ID
is not merged at all. -/
theorem claim_C8 (d o : dashboard.Dashboard) :
    (d.Merge (some o)).ID = d.ID ∧
    (d.Merge (some o)).Name = (if o.Name ≠ "" then o.Name else d.Name) ∧
    (d.Merge (some o)).Description =
      (if o.Description ≠ "" then o.Description else d.Description) ∧
    (d.Merge (some o)).Station = (if o.Station.ID ≠ "" then o.Station else d.Station) ∧
    (d.Merge (some o)).WaterLevel =
      (if o.WaterLevel.Samples.length > 0 then o.WaterLevel else d.WaterLevel) ∧
    (d.Merge (some o)).LanguageCode =
      (if o.LanguageCode ≠ "" then o.LanguageCode else d.LanguageCode) ∧
    (d.Merge (some o)).Timezone = (if o.Timezone ≠ "" then o.Timezone else d.Timezone) ∧
    (d.Merge (some o)).CreatedAt = (if o.CreatedAt > 0 then o.CreatedAt else d.CreatedAt) ∧
    (d.Merge (some o)).UpdatedAt = (if o.UpdatedAt > 0 then o.UpdatedAt else d.UpdatedAt) := by
  refine ⟨?_, ?_, ?_, ?_, ?_, ?_, ?_, ?_, ?_⟩ <;> unfold dashboard.Dashboard.Merge
  · simp only [apply_ite dashboard.Dashboard.ID]; simp
  · simp only [apply_ite dashboard.Dashboard.Name]; simp
  · simp only [apply_ite dashboard.Dashboard.Description]; simp
  · simp only [apply_ite dashboard.Dashboard.Station]; simp
  · simp only [apply_ite dashboard.Dashboard.WaterLevel]; simp
  · simp only [apply_ite dashboard.Dashboard.LanguageCode]; simp
  · simp only [apply_ite dashboard.Dashboard.Timezone]; simp
  · simp only [apply_ite dashboard.Dashboard.CreatedAt]; simp
  · simp only [apply_ite dashboard.Dashboard.UpdatedAt]; simp
/-- Shifting an instant by a whole number of days shifts its UTC
calendar-day index by that number of days. -/
theorem GoTimeModel.utcDay_sub_days (e n : Int) :
    GoTimeModel.utcDay (e - n * 86400) = GoTimeModel.utcDay e - n := by
  unfold GoTimeModel.utcDay
  rw [Int.fdiv_eq_ediv _ (by norm_num), Int.fdiv_eq_ediv _ (by norm_num)]
  rw [sub_eq_add_neg e, sub_eq_add_neg _ n, ← neg_mul]
  rw [Int.add_mul_ediv_right _ _ (by norm_num : (86400 : Int) ≠ 0)]

/-- C5: with `t` the parsed timestamp of the latest reading `m`, the
comparison set `calculateDifferenceNDays` builds for horizon `nDays`
(the same-day measurements at `targetDate = t` moved back
`nDays * 86400` seconds) keeps exactly the readings whose parsed UTC
calendar-day index equals the latest reading's day index minus `nDays`,
independent of time-of-day.  The closing conjuncts check the claim's
concrete scenario: with latest at 2023-10-05T12:00:00Z (day index of
epoch 1696507200) and horizon 3, the reading at 2023-10-02T00:01:00Z is
in the set and the one at 2023-10-01T23:59:00Z is not, though the
latter is less than 72 hours before the latest. -/
theorem claim_C5 (ms : List station.Measurement) (m : station.Measurement)
    (nDays : Int) (t : GoTimeModel.GoTime)
    (hm : station.ParseTimestamp m.Timestamp = some t) :
    station.getSameDayMeasurements ms { t with epoch := t.epoch - nDays * 86400 } =
      ms.filter (fun r =>
        match station.ParseTimestamp r.Timestamp with
        | none => false
        | some tr => GoTimeModel.utcDay tr.epoch == GoTimeModel.utcDay t.epoch - nDays) ∧
    ((⟨"2023-10-02T00:01:00Z", 100, "cm"⟩ : station.Measurement) ∈
      station.getSameDayMeasurements
        [⟨"2023-10-02T00:01:00Z", 100, "cm"⟩, ⟨"2023-10-01T23:59:00Z", 5, "cm"⟩]
        ⟨1696507200 - 3 * 86400, 0⟩) ∧
    ((⟨"2023-10-01T23:59:00Z", 5, "cm"⟩ : station.Measurement) ∉
      station.getSameDayMeasurements
        [⟨"2023-10-02T00:01:00Z", 100, "cm"⟩, ⟨"2023-10-01T23:59:00Z", 5, "cm"⟩]
        ⟨1696507200 - 3 * 86400, 0⟩) := by
  refine ⟨?_, by decide, by decide⟩
  unfold station.getSameDayMeasurements
  apply List.filter_congr
  intro r _
  cases hr : station.ParseTimestamp r.Timestamp with
  | none => simp only [hr]
  | some tr =>
    simp only [hr, station.IsDameDay]
    rw [GoTimeModel.utcDay_sub_days]

/-- C5 witness: the characterization applied to the claim's scenario
with latest 2023-10-05T12:00:00Z, horizon 3. -/
theorem claim_C5_witness :
    station.getSameDayMeasurements
        [⟨"2023-10-02T00:01:00Z", 100, "cm"⟩, ⟨"2023-10-01T23:59:00Z", 5, "cm"⟩]
        ⟨1696507200 - 3 * 86400, 0⟩ =
      List.filter (fun r =>
          match station.ParseTimestamp r.Timestamp with
          | none => false
          | some tr => GoTimeModel.utcDay tr.epoch == GoTimeModel.utcDay 1696507200 - 3)
        [⟨"2023-10-02T00:01:00Z", 100, "cm"⟩, ⟨"2023-10-01T23:59:00Z", 5, "cm"⟩] :=
  (claim_C5 [⟨"2023-10-02T00:01:00Z", 100, "cm"⟩, ⟨"2023-10-01T23:59:00Z", 5, "cm"⟩]
    ⟨"2023-10-05T12:00:00Z", 15, "cm"⟩ 3 ⟨1696507200, 0⟩ (by decide)).1
/-- C9: for a station whose water-level series was never created, the
measurement lookup inside `GetTimeseries` finds nothing, `GetTimeseries`
returns nil with a nil error, and `DashboardBuilder.Run` dereferences
that nil `*Timeseries` when assigning the dashboard's WaterLevel field:
the build panics instead of returning an error.  The hypotheses only
keep `Run` from failing earlier: a non-empty station id, a parsable
period, and a station repository that does not error. -/
theorem claim_C9 (env : task.BuilderEnv) (opts : task.DashboardBuilderOptions)
    (hsid : opts.StationID ≠ "")
    (hdur : ∃ secs, env.durParse opts.Period = some secs)
    (hstation : ∀ e, env.stationGet opts.StationID ≠ .error e)
    (hlookup : measurement.getMeasurementByName env.store
      (measurement.NewMeasurementName env.slugMake ["waterlevel", opts.StationID]) = none) :
    task.DashboardBuilder.Run env opts = .panicked := by
  obtain ⟨secs, hdur⟩ := hdur
  unfold task.DashboardBuilder.Run
  dsimp only
  have hgen : dashboard.GenerateDashboardID env.slugMake
      (some (dashboard.NewEmptyDashboard opts.StationID opts.LanguageCode opts.Timezone)) =
      .ok (env.slugMake
        (String.intercalate "-" [opts.StationID, opts.LanguageCode, opts.Timezone])) := by
    unfold dashboard.GenerateDashboardID dashboard.NewEmptyDashboard
    simp [hsid]
  rw [hgen]
  have hfetch : measurement.NewFromISO8601Duration env.durParse env.now opts.Period =
      some { Start := if env.now - secs < 0 then 0 else env.now - secs, End := env.now } := by
    unfold measurement.NewFromISO8601Duration measurement.ParseISO8601Duration
    rw [hdur]
  have hts : ∀ period, measurement.GetTimeseries env.store
      (measurement.NewMeasurementName env.slugMake ["waterlevel", opts.StationID]) period =
        .ok none := by
    intro period
    unfold measurement.GetTimeseries
    rw [hlookup]
  cases hdg : env.dashboardGet (env.slugMake
      (String.intercalate "-" [opts.StationID, opts.LanguageCode, opts.Timezone])) with
  | ok existing =>
    simp only [hdg, hfetch, hts]
  | error e =>
    cases hst : env.stationGet opts.StationID with
    | error e2 => exact absurd hst (hstation e2)
    | ok stationDetails =>
      cases stationDetails with
      | none => simp only [hdg, hst, hfetch, hts]
      | some s => simp only [hdg, hst, hfetch, hts]

/-- The concrete environment for the C9 witness: an empty relational
store (no series ever created), a dashboard repository with no cached
dashboard, and a station repository that finds nothing. -/
def c9Env : task.BuilderEnv :=
  { slugMake := fun s => s,
    durParse := fun _ => some 1296000,
    now := 1700000000,
    dashboardGet := fun id => .error ("dashboard with ID " ++ id ++ " not found"),
    stationGet := fun _ => .ok none,
    store := measurement.Store.empty }

def c9Opts : task.DashboardBuilderOptions := task.NewDefaultDashboardBuilderOptions "station1"

/-- C9 witness: the dashboard build for station1 with the default
options panics on the empty store. -/
theorem claim_C9_witness : task.DashboardBuilder.Run c9Env c9Opts = .panicked :=
  claim_C9 c9Env c9Opts (by decide) ⟨1296000, rfl⟩
    (by intro e h; simp [c9Env] at h) (by decide)

/-- C10: a list entry whose timestamp fails RFC3339 parsing never makes
the trend computation fail: it is never a member of any same-day
comparison set, and appending it to the measurement list leaves a
successful `calculateDifferenceNDays` result unchanged.  The only
timestamp whose malformedness produces an error is the latest
(reference) reading's own, third conjunct. -/
theorem claim_C10 (ms : List station.Measurement) (m bad : station.Measurement)
    (nDays : Int) (hbad : station.ParseTimestamp bad.Timestamp = none) :
    (∀ targetDate, bad ∉ station.getSameDayMeasurements ms targetDate) ∧
    (∀ res, station.calculateDifferenceNDays m ms nDays = .ok res →
      station.calculateDifferenceNDays m (ms ++ [bad]) nDays = .ok res) ∧
    (station.ParseTimestamp m.Timestamp = none → ms.length ≠ 0 →
      station.calculateDifferenceNDays m ms nDays = .error "invalid timestamp format") := by
  have hfilter : ∀ (l : List station.Measurement) targetDate,
      station.getSameDayMeasurements (l ++ [bad]) targetDate =
        station.getSameDayMeasurements l targetDate := by
    intro l targetDate
    unfold station.getSameDayMeasurements
    rw [List.filter_append]
    simp [hbad]
  refine ⟨?_, ?_, ?_⟩
  · intro targetDate hmem
    unfold station.getSameDayMeasurements at hmem
    obtain ⟨-, hp⟩ := List.mem_filter.mp hmem
    simp [hbad] at hp
  · intro res h
    by_cases h0 : ms.length = 0
    · simp [station.calculateDifferenceNDays, h0] at h
    · cases hp : station.ParseTimestamp m.Timestamp with
      | none => simp [station.calculateDifferenceNDays, h0, hp] at h
      | some t =>
        unfold station.calculateDifferenceNDays at h ⊢
        rw [if_neg h0] at h
        rw [if_neg (by simp [List.length_append] : ¬(ms ++ [bad]).length = 0)]
        rw [hp] at h ⊢
        dsimp only at h ⊢
        rw [hfilter]
        exact h
  · intro hm hne
    simp [station.calculateDifferenceNDays, hm, hne]

/-- C10 witness: with a well-formed 1-day-old reading and a malformed
entry appended, the malformed entry is excluded from the comparison set
and the P1D computation still succeeds with the same result. -/
theorem claim_C10_witness :
    ((⟨"not-a-timestamp", 1, "cm"⟩ : station.Measurement) ∉
      station.getSameDayMeasurements [⟨"2023-11-04T09:00:00Z", 8, "cm"⟩] ⟨1699099200, 0⟩) ∧
    station.calculateDifferenceNDays ⟨"2023-11-05T12:00:00Z", 20, "cm"⟩
        ([⟨"2023-11-04T09:00:00Z", 8, "cm"⟩] ++ [⟨"not-a-timestamp", 1, "cm"⟩]) 1 =
      .ok ⟨"2023-11-04T12:00:00Z", -12, "cm"⟩ := by
  have h := claim_C10 [⟨"2023-11-04T09:00:00Z", 8, "cm"⟩] ⟨"2023-11-05T12:00:00Z", 20, "cm"⟩
    ⟨"not-a-timestamp", 1, "cm"⟩ 1 (by decide)
  exact ⟨h.1 ⟨1699099200, 0⟩, h.2.1 ⟨"2023-11-04T12:00:00Z", -12, "cm"⟩
    (of_decide_eq_true (by with_unfolding_all rfl))⟩
namespace measurement

/-- The invariant C4 asserts: at most one sample row per
(measurement_id, timestamp) pair. -/
def NoDupSamples (st : Store) : Prop :=
  st.samples.Pairwise fun a b => ¬(a.measurementID = b.measurementID ∧ a.timestamp = b.timestamp)

theorem insertSamples_cons (st : Store) (mid : Int) (x : Sample) (l : List Sample) :
    insertSamples st mid (x :: l) = insertSamples (addSample st mid x) mid l := rfl

theorem addSample_measurements (st : Store) (mid : Int) (s : Sample) :
    (addSample st mid s).measurements = st.measurements := by
  unfold addSample
  split <;> rfl

theorem insertSamples_measurements (mid : Int) (l : List Sample) :
    ∀ st : Store, (insertSamples st mid l).measurements = st.measurements := by
  induction l with
  | nil => intro st; rfl
  | cons x xs ih =>
    intro st
    rw [insertSamples_cons, ih, addSample_measurements]

theorem hasSample_addSample_mono (st : Store) (mid2 : Int) (s : Sample) (mid t : Int)
    (h : hasSample st mid t = true) : hasSample (addSample st mid2 s) mid t = true := by
  unfold addSample
  split
  · exact h
  · unfold hasSample at h ⊢
    dsimp only
    rw [List.any_append, h]
    rfl

theorem hasSample_insertSamples_mono (mid2 : Int) (l : List Sample) (mid t : Int) :
    ∀ st : Store, hasSample st mid t = true → hasSample (insertSamples st mid2 l) mid t = true := by
  induction l with
  | nil => intro st h; exact h
  | cons x xs ih =>
    intro st h
    rw [insertSamples_cons]
    exact ih _ (hasSample_addSample_mono st mid2 x mid t h)

theorem hasSample_addSample_self (st : Store) (mid : Int) (s : Sample) :
    hasSample (addSample st mid s) mid s.Timestamp = true := by
  unfold addSample
  split
  · assumption
  · unfold hasSample
    dsimp only
    rw [List.any_append]
    simp

theorem hasSample_insertSamples_of_mem (mid : Int) (s : Sample) (l : List Sample)
    (hmem : s ∈ l) :
    ∀ st : Store, hasSample (insertSamples st mid l) mid s.Timestamp = true := by
  induction l with
  | nil => cases hmem
  | cons x xs ih =>
    intro st
    rw [insertSamples_cons]
    rcases List.mem_cons.mp hmem with rfl | hxs
    · exact hasSample_insertSamples_mono mid xs mid s.Timestamp _
        (hasSample_addSample_self st mid s)
    · exact ih hxs _

theorem addSample_of_hasSample (st : Store) (mid : Int) (s : Sample)
    (h : hasSample st mid s.Timestamp = true) : addSample st mid s = st := by
  unfold addSample
  rw [if_pos h]

theorem insertSamples_of_all_present (mid : Int) (l : List Sample) :
    ∀ st : Store, (∀ s ∈ l, hasSample st mid s.Timestamp = true) →
      insertSamples st mid l = st := by
  induction l with
  | nil => intro st _; rfl
  | cons x xs ih =>
    intro st h
    rw [insertSamples_cons, addSample_of_hasSample st mid x (h x (List.mem_cons_self x xs))]
    exact ih st fun s hs => h s (List.mem_cons_of_mem x hs)

/-- Running the sample-insertion loop a second time with the same
samples changes nothing: every sample is already present. -/
theorem insertSamples_idem (st : Store) (mid : Int) (l : List Sample) :
    insertSamples (insertSamples st mid l) mid l = insertSamples st mid l :=
  insertSamples_of_all_present mid l _ fun s hs => hasSample_insertSamples_of_mem mid s l hs _

theorem noDupSamples_addSample (st : Store) (mid : Int) (s : Sample)
    (h : NoDupSamples st) : NoDupSamples (addSample st mid s) := by
  unfold addSample
  split
  · exact h
  · rename_i hns
    unfold NoDupSamples at h ⊢
    dsimp only
    rw [List.pairwise_append]
    refine ⟨h, by simp, ?_⟩
    intro a ha b hb
    simp only [List.mem_singleton] at hb
    subst hb
    dsimp only
    intro hcon
    apply hns
    unfold hasSample
    rw [List.any_eq_true]
    refine ⟨a, ha, ?_⟩
    simp [hcon.1, hcon.2]
theorem noDupSamples_insertSamples (mid : Int) (l : List Sample) :
    ∀ st : Store, NoDupSamples st → NoDupSamples (insertSamples st mid l) := by
  induction l with
  | nil => intro st h; exact h
  | cons x xs ih =>
    intro st h
    rw [insertSamples_cons]
    exact ih _ (noDupSamples_addSample st mid x h)

theorem hasMeasurement_congr (st1 st2 : Store) (n : String)
    (h : st1.measurements = st2.measurements) :
    hasMeasurement st1 n = hasMeasurement st2 n := by
  unfold hasMeasurement
  rw [h]

theorem getMeasurementByName_congr (st1 st2 : Store) (n : String)
    (h : st1.measurements = st2.measurements) :
    getMeasurementByName st1 n = getMeasurementByName st2 n := by
  unfold getMeasurementByName
  cases sqliteTextAsInt n with
  | none => rfl
  | some k => dsimp only; rw [h]

theorem hasMeasurement_AddMeasurement_self (st : Store) (meta : Measurement) :
    hasMeasurement (AddMeasurement st meta) meta.Name = true := by
  unfold hasMeasurement AddMeasurement
  dsimp only
  rw [List.any_append]
  simp

/-- Reduction of `AddTimeseries` when the measurement row already
exists. -/
theorem AddTimeseries_of_has (st : Store) (ts : Timeseries)
    (h : hasMeasurement st ts.Name = true) :
    AddTimeseries st (some ts) =
      (match getMeasurementByName st ts.Name with
       | none => (some ("measurement not found after adding: " ++ ts.Name), st)
       | some row => (none, insertSamples st row.id ts.Samples)) := by
  unfold AddTimeseries
  dsimp only
  rw [if_pos h]

/-- Reduction of `AddTimeseries` when the row is absent and metadata is
present: the metadata row is inserted first. -/
theorem AddTimeseries_of_not_has (st : Store) (ts : Timeseries) (meta : Measurement)
    (h : ¬hasMeasurement st ts.Name = true) (hm : ts.Measurement = some meta) :
    AddTimeseries st (some ts) =
      (match getMeasurementByName (AddMeasurement st meta) ts.Name with
       | none => (some ("measurement not found after adding: " ++ ts.Name), AddMeasurement st meta)
       | some row => (none, insertSamples (AddMeasurement st meta) row.id ts.Samples)) := by
  unfold AddTimeseries
  dsimp only
  rw [if_neg h, hm]

/-- Reduction of `AddTimeseries` when the row is absent and the
timeseries carries no metadata. -/
theorem AddTimeseries_of_not_has_nil (st : Store) (ts : Timeseries)
    (h : ¬hasMeasurement st ts.Name = true) (hm : ts.Measurement = none) :
    AddTimeseries st (some ts) = (some "measurement cannot be nil", st) := by
  unfold AddTimeseries
  dsimp only
  rw [if_neg h, hm]

end measurement
/-- C4: re-running `AddTimeseries` with the same timeseries leaves the
persisted sample row count unchanged, because `addSample` skips any
sample whose (measurement_id, timestamp) pair already exists; and a
store with at most one sample per such pair keeps that invariant across
`AddTimeseries`.  The hypothesis ties the timeseries' metadata name to
its series name, as every in-repo constructor does (with mismatched
names a second run can resolve a different measurement id through the
`WHERE id = ?` lookup and insert fresh rows). -/
theorem claim_C4 (ts : measurement.Timeseries) (st : measurement.Store)
    (hname : ∀ meta, ts.Measurement = some meta → meta.Name = ts.Name)
    (hnodup : measurement.NoDupSamples st) :
    (measurement.AddTimeseries (measurement.AddTimeseries st (some ts)).2
        (some ts)).2.samples.length =
      (measurement.AddTimeseries st (some ts)).2.samples.length ∧
    measurement.NoDupSamples (measurement.AddTimeseries st (some ts)).2 := by
  by_cases hh : measurement.hasMeasurement st ts.Name = true
  · rw [measurement.AddTimeseries_of_has st ts hh]
    cases hlook : measurement.getMeasurementByName st ts.Name with
    | none =>
      dsimp only
      rw [measurement.AddTimeseries_of_has st ts hh, hlook]
      exact ⟨rfl, hnodup⟩
    | some row =>
      dsimp only
      have hms : (measurement.insertSamples st row.id ts.Samples).measurements =
          st.measurements := measurement.insertSamples_measurements row.id ts.Samples st
      have hh2 : measurement.hasMeasurement
          (measurement.insertSamples st row.id ts.Samples) ts.Name = true := by
        rw [measurement.hasMeasurement_congr _ st ts.Name hms]
        exact hh
      rw [measurement.AddTimeseries_of_has _ ts hh2,
        measurement.getMeasurementByName_congr _ st ts.Name hms, hlook]
      dsimp only
      rw [measurement.insertSamples_idem]
      exact ⟨rfl, measurement.noDupSamples_insertSamples row.id ts.Samples st hnodup⟩
  · cases hmeta : ts.Measurement with
    | none =>
      rw [measurement.AddTimeseries_of_not_has_nil st ts hh hmeta]
      dsimp only
      rw [measurement.AddTimeseries_of_not_has_nil st ts hh hmeta]
      exact ⟨rfl, hnodup⟩
    | some meta =>
      have hmn : meta.Name = ts.Name := hname meta hmeta
      have hh1 : measurement.hasMeasurement (measurement.AddMeasurement st meta)
          ts.Name = true := by
        rw [← hmn]
        exact measurement.hasMeasurement_AddMeasurement_self st meta
      rw [measurement.AddTimeseries_of_not_has st ts meta hh hmeta]
      cases hlook : measurement.getMeasurementByName
          (measurement.AddMeasurement st meta) ts.Name with
      | none =>
        dsimp only
        rw [measurement.AddTimeseries_of_has _ ts hh1, hlook]
        exact ⟨rfl, hnodup⟩
      | some row =>
        dsimp only
        have hms : (measurement.insertSamples (measurement.AddMeasurement st meta)
            row.id ts.Samples).measurements =
            (measurement.AddMeasurement st meta).measurements :=
          measurement.insertSamples_measurements row.id ts.Samples _
        have hh2 : measurement.hasMeasurement
            (measurement.insertSamples (measurement.AddMeasurement st meta)
              row.id ts.Samples) ts.Name = true := by
          rw [measurement.hasMeasurement_congr _ _ ts.Name hms]
          exact hh1
        rw [measurement.AddTimeseries_of_has _ ts hh2,
          measurement.getMeasurementByName_congr _ _ ts.Name hms, hlook]
        dsimp only
        rw [measurement.insertSamples_idem]
        exact ⟨rfl,
          measurement.noDupSamples_insertSamples row.id ts.Samples _ hnodup⟩

/-- The timeseries used by the C4 witness: three samples, two of them
sharing a timestamp. -/
def c4TS : measurement.Timeseries :=
  { Name := "waterlevel-b",
    Samples := [⟨0, 0, 5, 100⟩, ⟨0, 0, 6, 100⟩, ⟨0, 0, 7, 200⟩],
    Start := 0, End := 1000,
    Measurement := some { ID := 0, Name := "waterlevel-b", Description := "", Unit := "cm" } }

/-- C4 witness: ingesting the same timeseries twice into the empty
store yields the same sample row count as once, and the
one-sample-per-(measurement_id, timestamp) invariant holds afterwards. -/
theorem claim_C4_witness :
    (measurement.AddTimeseries (measurement.AddTimeseries measurement.Store.empty
        (some c4TS)).2 (some c4TS)).2.samples.length =
      (measurement.AddTimeseries measurement.Store.empty (some c4TS)).2.samples.length ∧
    measurement.NoDupSamples
      (measurement.AddTimeseries measurement.Store.empty (some c4TS)).2 :=
  claim_C4 c4TS measurement.Store.empty
    (fun meta h => by
      rw [show c4TS.Measurement =
        some { ID := 0, Name := "waterlevel-b", Description := "", Unit := "cm" } from rfl] at h
      cases h
      rfl)
    List.Pairwise.nil
